import Mathlib

/-!
Shallow embedding of the smartllm-router decision pipeline
(`smartllm_router/analyzer.py`, `selector.py`, `rules.py`, `tracker.py`,
`router.py`) and proofs about it.  Money, scores and timestamps are
rationals; token counts are naturals; Python dicts keyed by model name
become explicit lookup functions; the provider network call becomes an
oracle `String → Option String` (`none` = the call raised).
-/

namespace SmartLLM

/-- `ModelProvider` enum from `selector.py`. -/
inductive ModelProvider where
  | openai
  | anthropic
  | google
  | mistral
deriving DecidableEq, Repr

/-- `ModelProvider.value` (the string payload of the Python enum). -/
def ModelProvider.value : ModelProvider → String
  | .openai => "openai"
  | .anthropic => "anthropic"
  | .google => "google"
  | .mistral => "mistral"

/-- `Model` dataclass from `selector.py`. -/
structure Model where
  name : String
  provider : ModelProvider
  cost_per_1k_input : ℚ
  cost_per_1k_output : ℚ
  max_tokens : ℕ
  speed_score : ℚ
  quality_score : ℚ
  capabilities : List String
deriving DecidableEq, Repr

/-- Catalog entry `"gpt-3.5-turbo"` from `ModelSelector._initialize_models`. -/
def gpt_35_turbo : Model :=
  { name := "gpt-3.5-turbo", provider := .openai
    cost_per_1k_input := 0.0005, cost_per_1k_output := 0.0015
    max_tokens := 4096, speed_score := 9, quality_score := 7
    capabilities := ["general", "code_generation", "summarization"] }

/-- Catalog entry `"gpt-4o-mini"`. -/
def gpt_4o_mini : Model :=
  { name := "gpt-4o-mini", provider := .openai
    cost_per_1k_input := 0.00015, cost_per_1k_output := 0.0006
    max_tokens := 128000, speed_score := 9, quality_score := 9
    capabilities := ["general", "code_generation", "summarization", "reasoning"] }

/-- Catalog entry `"gpt-4"`. -/
def gpt_4 : Model :=
  { name := "gpt-4", provider := .openai
    cost_per_1k_input := 0.03, cost_per_1k_output := 0.06
    max_tokens := 8192, speed_score := 6, quality_score := 10
    capabilities := ["all"] }

/-- Catalog entry `"claude-3-haiku"`. -/
def claude_3_haiku : Model :=
  { name := "claude-3-haiku", provider := .anthropic
    cost_per_1k_input := 0.00025, cost_per_1k_output := 0.00125
    max_tokens := 200000, speed_score := 10, quality_score := 7.5
    capabilities := ["general", "summarization", "long_context"] }

/-- Catalog entry `"claude-3-opus"`. -/
def claude_3_opus : Model :=
  { name := "claude-3-opus", provider := .anthropic
    cost_per_1k_input := 0.015, cost_per_1k_output := 0.075
    max_tokens := 200000, speed_score := 5, quality_score := 10
    capabilities := ["all"] }

/-- Catalog entry `"mistral-7b"`. -/
def mistral_7b : Model :=
  { name := "mistral-7b", provider := .mistral
    cost_per_1k_input := 0.0002, cost_per_1k_output := 0.0002
    max_tokens := 8192, speed_score := 8, quality_score := 6
    capabilities := ["general", "code_generation"] }

/-- Catalog entry `"gemini-pro"`. -/
def gemini_pro : Model :=
  { name := "gemini-pro", provider := .google
    cost_per_1k_input := 0.00025, cost_per_1k_output := 0.0005
    max_tokens := 32000, speed_score := 8, quality_score := 8
    capabilities := ["general", "code_generation", "mathematical_reasoning"] }

/-- The dict returned by `ModelSelector._initialize_models`, as a lookup by
name (`self.models.get(name)` / `name in self.models`). -/
def catalogFind : String → Option Model
  | "gpt-3.5-turbo" => some gpt_35_turbo
  | "gpt-4o-mini" => some gpt_4o_mini
  | "gpt-4" => some gpt_4
  | "claude-3-haiku" => some claude_3_haiku
  | "claude-3-opus" => some claude_3_opus
  | "mistral-7b" => some mistral_7b
  | "gemini-pro" => some gemini_pro
  | _ => none

/-- `SmartRouter._calculate_cost`. -/
def calculate_cost (model : Model) (input_tokens output_tokens : ℕ) : ℚ :=
  (input_tokens / 1000) * model.cost_per_1k_input
    + (output_tokens / 1000) * model.cost_per_1k_output

/-- The savings computation inlined in `SmartRouter.create` (lines 125-131):
the same token counts priced against the catalog's `gpt-4`, clamped at 0. -/
def savingsOf (model : Model) (input_tokens output_tokens : ℕ) : ℚ :=
  max 0 (calculate_cost gpt_4 input_tokens output_tokens
          - calculate_cost model input_tokens output_tokens)

/-! ### Query analyzer (`analyzer.py`) -/

/-- Does `s` start with `pat`? (character-list level). -/
def startsWithChars : List Char → List Char → Bool
  | _, [] => true
  | [], _ :: _ => false
  | c :: cs, p :: ps => c == p && startsWithChars cs ps

/-- Does `pat` occur as a contiguous substring of `s`?  Embeds
`re.search(pat, s)` for a literal pattern `pat`. -/
def containsChars (pat : List Char) : List Char → Bool
  | [] => pat.isEmpty
  | c :: cs => startsWithChars (c :: cs) pat || containsChars pat cs

/-- Python `str.lower()`: per-character lowercasing of the query (the
patterns involved are ASCII, where per-character lowering agrees with
Python's). -/
def lowerChars (s : String) : List Char :=
  s.data.map Char.toLower

/-- `QueryAnalyzer.task_patterns`: the ordered dict of task categories, each
regex `a|b|c` of literal alternatives rendered as the list of its
alternatives.  Python dicts iterate in insertion order, so the list order is
the declaration order of the source. -/
def taskPatterns : List (String × List (List String)) :=
  [("simple_qa",
     [["what is", "what are", "who is", "who are", "when is", "when was",
       "where is"],
      ["define", "definition of", "meaning of"],
      ["yes or no", "true or false"]]),
   ("summarization",
     [["summarize", "summary of", "tldr", "key points"],
      ["main idea", "brief overview", "condensed version"]]),
   ("code",
     [["```", "code", "function", "implement", "algorithm", "debug", "fix"],
      ["python", "javascript", "java", "c++", "sql", "programming"]]),
   ("analysis",
     [["analyze", "analysis", "compare", "contrast", "evaluate"],
      ["pros and cons", "advantages", "disadvantages", "implications"]]),
   ("creative",
     [["write a story", "poem", "creative", "imagine", "fictional"],
      ["brainstorm", "ideas for", "suggestions for"]]),
   ("math",
     [["calculate", "solve", "equation", "formula", "mathematical"],
      ["derivative", "integral", "probability", "statistics"]]),
   ("reasoning",
     [["explain why", "how does", "logical", "reasoning", "think through"],
      ["step by step", "walkthrough", "systematic"]])]

/-- Does the (already lowercased) query match any pattern of the category?
(`re.search` of a literal alternation = some alternative is a substring). -/
def categoryMatches (ql : List Char) (patterns : List (List String)) : Bool :=
  patterns.any (fun pat => pat.any (fun alt => containsChars alt.data ql))

/-- The `for task_type, patterns in self.task_patterns.items()` loop of
`QueryAnalyzer._detect_task_type`. -/
def findTask (ql : List Char) :
    List (String × List (List String)) → Option String
  | [] => none
  | (t, patterns) :: rest =>
    if categoryMatches ql patterns then some t else findTask ql rest

/-- `QueryAnalyzer._detect_task_type`. -/
def detect_task_type (query : String) : String :=
  (findTask (lowerChars query) taskPatterns).getD "general"

/-- The `multipliers` dict of `QueryAnalyzer._estimate_output_tokens`,
with the `.get(task_type, 1.0)` default. -/
def outputMultiplier : String → ℚ
  | "simple_qa" => 0.5
  | "summarization" => 0.3
  | "code" => 2.5
  | "analysis" => 2.0
  | "creative" => 3.0
  | "math" => 1.5
  | "reasoning" => 2.0
  | "general" => 1.0
  | _ => 1.0

/-- `QueryAnalyzer._estimate_output_tokens` (`int(...)` truncates; the value
is nonnegative, so truncation is the floor). -/
def estimate_output_tokens (task_type : String) (input_tokens : ℕ) : ℕ :=
  (((input_tokens : ℚ) * outputMultiplier task_type).floor).toNat

/-- `re.search(r'\d+[\+\-\*/]\d+', s)`: the regex matches some substring of
`s` iff some adjacent triple digit, operator, digit occurs. -/
def hasArithTriple : List Char → Bool
  | a :: b :: c :: rest =>
    (a.isDigit && (b == '+' || b == '-' || b == '*' || b == '/') && c.isDigit)
      || hasArithTriple (b :: c :: rest)
  | _ => false

/-- `QueryAnalyzer._detect_required_capabilities`. -/
def detect_required_capabilities (query : String) (task_type : String) :
    List String :=
  (if task_type == "code" then ["code_generation"] else [])
    ++ (if task_type == "math" || hasArithTriple query.data then
          ["mathematical_reasoning"] else [])
    ++ (if task_type == "analysis" || task_type == "reasoning" then
          ["complex_reasoning"] else [])
    ++ (if query.length > 1000 then ["long_context"] else [])
    ++ (if ["json", "xml", "yaml", "csv"].any
            (fun alt => containsChars alt.data (lowerChars query)) then
          ["structured_output"] else [])

/-- The `task_scores` dict of `QueryAnalyzer._calculate_complexity_score`,
with the `.get(task_type, 0.5)` default. -/
def taskScore : String → ℚ
  | "simple_qa" => 0.1
  | "summarization" => 0.3
  | "code" => 0.8
  | "analysis" => 0.7
  | "creative" => 0.6
  | "math" => 0.8
  | "reasoning" => 0.9
  | "general" => 0.5
  | _ => 0.5

/-- `QueryAnalyzer._calculate_complexity_score`. -/
def calculate_complexity_score (token_count : ℕ) (vocab_complexity : ℚ)
    (task_type : String) (capabilities : List String) : ℚ :=
  min ((token_count : ℚ) / 500) 1 * 0.2
    + vocab_complexity * 0.2
    + taskScore task_type * 0.4
    + min ((capabilities.length : ℚ) * 0.1) 0.2

/-- `QueryComplexity` dataclass from `analyzer.py`. -/
structure QueryComplexity where
  token_count : ℕ
  vocabulary_complexity : ℚ
  task_type : String
  estimated_output_tokens : ℕ
  required_capabilities : List String
  complexity_score : ℚ
deriving Repr

/-- `QueryAnalyzer.analyze`.  The tiktoken `cl100k_base` encoder is an
external collaborator; it enters as the parameter `encode` (token ids of the
query, in order), and `len(set(tokens))` is the length after `dedup`. -/
def analyze (encode : String → List ℕ) (query : String) : QueryComplexity :=
  let tokens := encode query
  let token_count := tokens.length
  let unique_tokens := tokens.dedup.length
  let vocabulary_complexity : ℚ :=
    if token_count > 0 then (unique_tokens : ℚ) / token_count else 0
  let task_type := detect_task_type query
  let estimated_output := estimate_output_tokens task_type token_count
  let capabilities := detect_required_capabilities query task_type
  let complexity_score :=
    calculate_complexity_score token_count vocabulary_complexity task_type
      capabilities
  { token_count := token_count
    vocabulary_complexity := vocabulary_complexity
    task_type := task_type
    estimated_output_tokens := estimated_output
    required_capabilities := capabilities
    complexity_score := complexity_score }

/-! ### Routing rules and model selection (`rules.py`, `selector.py`) -/

/-- `RoutingRule` dataclass from `rules.py`; the predicate is a boolean
function of the complexity descriptor. -/
structure RoutingRule where
  name : String
  condition : QueryComplexity → Bool
  model : String
  priority : ℤ := 50

/-- `sorted(custom_rules, key=lambda r: r.priority, reverse=True)`: a stable
sort descending by priority (insertion sort with non-strict comparison is
stable here, matching Python's stable `sorted`). -/
def sortRulesByPriority (rules : List RoutingRule) : List RoutingRule :=
  rules.insertionSort (fun a b => b.priority ≤ a.priority)

/-- The custom-rule loop of `ModelSelector.select_model` (lines 122-126): the
first rule in the sorted order whose condition holds AND whose model name is
in the catalog wins; a matching rule with an unknown model is skipped. -/
def applyCustomRules (complexity : QueryComplexity) :
    List RoutingRule → Option Model
  | [] => none
  | r :: rest =>
    if r.condition complexity then
      match catalogFind r.model with
      | some m => some m
      | none => applyCustomRules complexity rest
    else applyCustomRules complexity rest

/-- `ModelSelector._select_cost_optimized`. -/
def select_cost_optimized (c : QueryComplexity) : Model :=
  if c.complexity_score < 0.3 then mistral_7b
  else if c.complexity_score < 0.5 then claude_3_haiku
  else if c.complexity_score < 0.7 then gpt_35_turbo
  else if c.complexity_score < 0.85 then gemini_pro
  else gpt_4

/-- `ModelSelector._select_quality_first`. -/
def select_quality_first (c : QueryComplexity) : Model :=
  if c.complexity_score < 0.2 then gpt_35_turbo
  else if c.complexity_score < 0.6 then gemini_pro
  else gpt_4

/-- `ModelSelector._select_balanced`. -/
def select_balanced (c : QueryComplexity) : Model :=
  if c.required_capabilities.contains "code_generation" then
    (if c.complexity_score > 0.7 then gpt_4 else gpt_35_turbo)
  else if c.required_capabilities.contains "long_context" then claude_3_haiku
  else if c.required_capabilities.contains "mathematical_reasoning" then
    (if c.complexity_score > 0.6 then gpt_4 else gemini_pro)
  else if c.complexity_score < 0.4 then claude_3_haiku
  else if c.complexity_score < 0.7 then gpt_35_turbo
  else gpt_4

/-- `ModelSelector.select_model`: custom rules first, then dispatch on the
strategy string — any string other than `"cost_optimized"` and
`"quality_first"` takes the `else` (balanced) branch. -/
def select_model (complexity : QueryComplexity) (strategy : String)
    (custom_rules : List RoutingRule) : Model :=
  match applyCustomRules complexity (sortRulesByPriority custom_rules) with
  | some m => m
  | none =>
    if strategy == "cost_optimized" then select_cost_optimized complexity
    else if strategy == "quality_first" then select_quality_first complexity
    else select_balanced complexity

/-! ### Usage tracker (`tracker.py`)

Timestamps are clock readings in seconds (rationals); `datetime.now()`
values enter as explicit parameters.  `timedelta(days=d)` is `d * 86400`
seconds.  The calendar-date breakdown `daily_costs` and the
`model_distribution` dict are incrementally maintained views not involved in
any claim and are omitted; `self.requests` is the authoritative log. -/

/-- The dict entries appended by `CostTracker.track_request`. -/
structure UsageRecord where
  timestamp : ℚ
  model : String
  provider : String
  input_tokens : ℕ
  output_tokens : ℕ
  cost : ℚ
  savings : ℚ
  latency : ℚ
deriving Repr

/-- `CostTracker.track_request`: O(1) append of the record to
`self.requests`. -/
def track_request (requests : List UsageRecord) (r : UsageRecord) :
    List UsageRecord :=
  requests ++ [r]

/-- Banker's rounding of a rational to an integer (nearest, ties to even) —
the rounding mode of Python's `round`. -/
def roundHalfEvenInt (x : ℚ) : ℤ :=
  let f := ⌊x⌋
  let r := x - f
  if r < 1/2 then f
  else if 1/2 < r then f + 1
  else if Even f then f else f + 1

/-- Python `round(x, d)`: round to `d` decimal places, ties to even. -/
def pyRound (x : ℚ) (d : ℕ) : ℚ :=
  (roundHalfEvenInt (x * 10 ^ d) : ℚ) / 10 ^ d

/-- The scalar fields of the dict returned by `CostTracker.get_analytics`. -/
structure Analytics where
  total_requests : ℕ
  total_cost : ℚ
  total_savings : ℚ
  cost_reduction_percentage : ℚ
  average_latency : ℚ
deriving Repr

/-- `CostTracker.get_analytics`: filter `self.requests` to
`timestamp > now - period_days` (strict), return zeros when empty, else the
rounded sums; `statistics.mean` is sum over length. -/
def get_analytics (requests : List UsageRecord) (now : ℚ)
    (period_days : ℕ) : Analytics :=
  let cutoff := now - (period_days : ℚ) * 86400
  let recent := requests.filter (fun r => cutoff < r.timestamp)
  if recent.isEmpty then
    { total_requests := 0, total_cost := 0, total_savings := 0
      cost_reduction_percentage := 0, average_latency := 0 }
  else
    let total_cost := (recent.map (·.cost)).sum
    let total_savings := (recent.map (·.savings)).sum
    let avg_latency := (recent.map (·.latency)).sum / recent.length
    { total_requests := recent.length
      total_cost := pyRound total_cost 4
      total_savings := pyRound total_savings 4
      cost_reduction_percentage :=
        if 0 < total_cost + total_savings then
          pyRound (total_savings / (total_cost + total_savings) * 100) 2
        else 0
      average_latency := pyRound avg_latency 3 }

/-! ### Router (`router.py`) -/

/-- `RouterResponse` dataclass from `router.py`. -/
structure RouterResponse where
  content : String
  model : String
  provider : String
  input_tokens : ℕ
  output_tokens : ℕ
  cost : ℚ
  savings : ℚ
  latency : ℚ
  quality_score : Option ℚ := none
deriving Repr

/-- A value of the `self.cache` dict: `{"response": ..., "timestamp": ...}`. -/
structure CacheEntry where
  response : RouterResponse
  timestamp : ℚ
deriving Repr

/-- The `self.cache` dict, as an association list where the most recent
binding of a key shadows older ones. -/
def cacheLookup (cache : List (String × CacheEntry)) (key : String) :
    Option CacheEntry :=
  (cache.find? (fun p => p.1 == key)).map (·.2)

/-- The cache read of `SmartRouter.create` (lines 91-95): a hit only when
the key is present and `now - entry.timestamp < ttl`; the stored entry is
not touched. -/
def cache_get (cache : List (String × CacheEntry)) (ttl : ℚ) (now : ℚ)
    (key : String) : Option RouterResponse :=
  match cacheLookup cache key with
  | some cached =>
    if now - cached.timestamp < ttl then some cached.response else none
  | none => none

/-- The cache write of `SmartRouter.create` (lines 157-160): dict assignment,
i.e. the new entry shadows any previous binding of the key. -/
def cache_put (cache : List (String × CacheEntry)) (key : String)
    (resp : RouterResponse) (now : ℚ) : List (String × CacheEntry) :=
  (key, { response := resp, timestamp := now }) :: cache

/-- `SmartRouter._extract_query`'s loop over `reversed(messages)`; a message
is a dict, so `role`/`content` may be absent. -/
structure Message where
  role : Option String
  content : Option String
deriving Repr, DecidableEq

/-- Helper for `extract_query`: first message (in the given order) whose
`role` is `"user"`, yielding `message.get("content", "")`. -/
def findUserContent : List Message → Option String
  | [] => none
  | m :: rest =>
    if m.role == some "user" then some (m.content.getD "")
    else findUserContent rest

/-- `SmartRouter._extract_query`. -/
def extract_query (messages : List Message) : String :=
  (findUserContent messages.reverse).getD ""

/-- `SmartRouter._generate_cache_key`: `str(hash(query))`; Python's `hash`
is an external function, passed in as `pyHash`. -/
def generate_cache_key (pyHash : String → ℤ) (query : String) : String :=
  toString (pyHash query)

/-- Errors `SmartRouter.create` can raise: `ValueError("Unknown model: ...")`
for an explicit model name absent from the catalog, and any exception
escaping `_call_model_api` (provider failure with fallback disabled or the
fallback itself failing). -/
inductive RouterError where
  | unknownModel (name : String)
  | providerFailure
deriving DecidableEq, Repr

/-- `SmartRouter._call_model_api`: the provider call is the oracle
`api : model name → Option content` (`none` = the call raised); on failure
with fallback enabled the code calls the OpenAI path directly with the
catalog's `gpt-3.5-turbo` and returns only its content string. -/
def call_model_api (api : String → Option String) (enable_fallback : Bool)
    (model : Model) : Option String :=
  match api model.name with
  | some content => some content
  | none => if enable_fallback then api "gpt-3.5-turbo" else none

/-- Router configuration fields of `SmartRouter.__init__` used by `create`. -/
structure RouterConfig where
  strategy : String
  cache_ttl : ℚ
  enable_fallback : Bool

/-- Mutable state of a `SmartRouter` instance touched by `create`. -/
structure RouterState where
  custom_rules : List RoutingRule
  cache : List (String × CacheEntry)
  requests : List UsageRecord

/-- `SmartRouter.create`.  External collaborators enter as parameters:
`encode` (tiktoken), `pyHash` (Python `hash`), `api` (provider calls).
`now` is the clock at the cache check and `latency` the duration of the
provider call, so the cache write and the tracked record are stamped
`now + latency`. -/
def create (encode : String → List ℕ) (pyHash : String → ℤ)
    (api : String → Option String) (cfg : RouterConfig) (st : RouterState)
    (messages : List Message) (model : String) (now latency : ℚ) :
    Except RouterError (RouterResponse × RouterState) :=
  let query := extract_query messages
  let cache_key := generate_cache_key pyHash query
  match cache_get st.cache cfg.cache_ttl now cache_key with
  | some cached => .ok (cached, st)
  | none =>
    let complexity := analyze encode query
    match (if model == "auto" then
             Except.ok (select_model complexity cfg.strategy st.custom_rules)
           else
             match catalogFind model with
             | some m => Except.ok m
             | none => Except.error (RouterError.unknownModel model)) with
    | .error e => .error e
    | .ok selected_model =>
      match call_model_api api cfg.enable_fallback selected_model with
      | none => .error .providerFailure
      | some response_content =>
        let output_tokens := response_content.length / 4
        let actual_cost :=
          calculate_cost selected_model complexity.token_count output_tokens
        let gpt4_cost :=
          calculate_cost gpt_4 complexity.token_count output_tokens
        let savings := max 0 (gpt4_cost - actual_cost)
        let response : RouterResponse :=
          { content := response_content
            model := selected_model.name
            provider := selected_model.provider.value
            input_tokens := complexity.token_count
            output_tokens := output_tokens
            cost := actual_cost
            savings := savings
            latency := latency }
        let record : UsageRecord :=
          { timestamp := now + latency
            model := selected_model.name
            provider := selected_model.provider.value
            input_tokens := complexity.token_count
            output_tokens := output_tokens
            cost := actual_cost
            savings := savings
            latency := latency }
        .ok (response,
          { st with
            requests := track_request st.requests record
            cache := cache_put st.cache cache_key response (now + latency) })

/-! ### Helper lemmas -/

theorem taskScore_nonneg (s : String) : 0 ≤ taskScore s := by
  unfold taskScore
  split <;> norm_num

theorem taskScore_le (s : String) : taskScore s ≤ 0.9 := by
  unfold taskScore
  split <;> norm_num

theorem calculate_complexity_score_bounds (tc : ℕ) (v : ℚ) (tt : String)
    (caps : List String) (hv0 : 0 ≤ v) (hv1 : v ≤ 1) :
    0 ≤ calculate_complexity_score tc v tt caps ∧
      calculate_complexity_score tc v tt caps ≤ 1 := by
  unfold calculate_complexity_score
  have ha0 : (0 : ℚ) ≤ min ((tc : ℚ) / 500) 1 :=
    le_min (by positivity) (by norm_num)
  have ha1 : min ((tc : ℚ) / 500) 1 ≤ 1 := min_le_right _ _
  have hb0 : (0 : ℚ) ≤ min ((caps.length : ℚ) * 0.1) 0.2 :=
    le_min (by positivity) (by norm_num)
  have hb1 : min ((caps.length : ℚ) * 0.1) 0.2 ≤ 0.2 := min_le_right _ _
  have ht0 := taskScore_nonneg tt
  have ht1 := taskScore_le tt
  have h1 : min ((tc : ℚ) / 500) 1 * 0.2 ≤ 1 * 0.2 :=
    mul_le_mul_of_nonneg_right ha1 (by norm_num)
  have h2 : v * 0.2 ≤ 1 * 0.2 := mul_le_mul_of_nonneg_right hv1 (by norm_num)
  have h3 : taskScore tt * 0.4 ≤ 0.9 * 0.4 :=
    mul_le_mul_of_nonneg_right ht1 (by norm_num)
  constructor
  · positivity
  · linarith

theorem analyze_complexity_score (encode : String → List ℕ) (query : String) :
    (analyze encode query).complexity_score =
      calculate_complexity_score (encode query).length
        (if (encode query).length > 0 then
          ((encode query).dedup.length : ℚ) / (encode query).length
         else 0)
        (detect_task_type query)
        (detect_required_capabilities query (detect_task_type query)) := rfl

theorem vocab_complexity_bounds (tokens : List ℕ) :
    0 ≤ (if tokens.length > 0 then
          ((tokens.dedup.length : ℚ) / tokens.length) else 0) ∧
      (if tokens.length > 0 then
          ((tokens.dedup.length : ℚ) / tokens.length) else 0) ≤ 1 := by
  split
  · rename_i h
    constructor
    · positivity
    · rw [div_le_one (by exact_mod_cast h)]
      exact_mod_cast List.Sublist.length_le (List.dedup_sublist tokens)
  · norm_num

/-- Each catalog entry is stored under its own name. -/
theorem catalogFind_consistent (s : String) (m : Model)
    (h : catalogFind s = some m) : catalogFind m.name = some m := by
  unfold catalogFind at h
  split at h <;> first | (cases h; rfl) | cases h

theorem applyCustomRules_in_catalog (c : QueryComplexity)
    (l : List RoutingRule) (m : Model) (h : applyCustomRules c l = some m) :
    catalogFind m.name = some m := by
  induction l with
  | nil => exact absurd h (by simp [applyCustomRules])
  | cons r rest ih =>
    unfold applyCustomRules at h
    split at h
    · split at h
      · rename_i hfind
        cases h
        exact catalogFind_consistent _ _ hfind
      · exact ih h
    · exact ih h

theorem select_cost_optimized_in_catalog (c : QueryComplexity) :
    catalogFind (select_cost_optimized c).name = some (select_cost_optimized c) := by
  unfold select_cost_optimized
  split_ifs <;> rfl

theorem select_quality_first_in_catalog (c : QueryComplexity) :
    catalogFind (select_quality_first c).name = some (select_quality_first c) := by
  unfold select_quality_first
  split_ifs <;> rfl

theorem select_balanced_in_catalog (c : QueryComplexity) :
    catalogFind (select_balanced c).name = some (select_balanced c) := by
  unfold select_balanced
  split_ifs <;> rfl

theorem select_model_in_catalog (c : QueryComplexity) (strategy : String)
    (rules : List RoutingRule) :
    catalogFind (select_model c strategy rules).name =
      some (select_model c strategy rules) := by
  unfold select_model
  split
  · rename_i m hm
    exact applyCustomRules_in_catalog _ _ _ hm
  · split_ifs
    · exact select_cost_optimized_in_catalog c
    · exact select_quality_first_in_catalog c
    · exact select_balanced_in_catalog c

/-- A rule is eligible when its predicate holds and its model is known. -/
def ruleEligible (c : QueryComplexity) (r : RoutingRule) : Prop :=
  r.condition c = true ∧ (catalogFind r.model).isSome = true

instance : IsTotal RoutingRule (fun a b => b.priority ≤ a.priority) :=
  ⟨fun a b => le_total b.priority a.priority⟩

instance : IsTrans RoutingRule (fun a b => b.priority ≤ a.priority) :=
  ⟨fun _ _ _ h1 h2 => le_trans h2 h1⟩

/-- Scanning a priority-descending rule list returns `some m` as soon as all
eligible rules have priority at most `p`, some eligible rule of priority `p`
is present, and every eligible rule of priority `p` resolves to `m`. -/
theorem applyCustomRules_max (c : QueryComplexity) (p : ℤ) (m : Model) :
    ∀ l : List RoutingRule,
      List.Sorted (fun a b => b.priority ≤ a.priority) l →
      (∃ r ∈ l, ruleEligible c r ∧ r.priority = p) →
      (∀ r ∈ l, ruleEligible c r → r.priority ≤ p) →
      (∀ r ∈ l, ruleEligible c r → r.priority = p → catalogFind r.model = some m) →
      applyCustomRules c l = some m := by
  intro l
  induction l with
  | nil =>
    rintro _ ⟨r, hr, _⟩ _ _
    exact absurd hr (List.not_mem_nil r)
  | cons a l ih =>
    intro hsort hex hbound htie
    rw [List.sorted_cons] at hsort
    obtain ⟨hrel, hsort'⟩ := hsort
    by_cases hcond : a.condition c = true
    · cases hfind : catalogFind a.model with
      | some m' =>
        have helig : ruleEligible c a := ⟨hcond, by rw [hfind]; rfl⟩
        have hap : a.priority = p := by
          obtain ⟨r, hr, hre, hrp⟩ := hex
          rcases List.mem_cons.mp hr with rfl | hrl
          · exact hrp
          · have h1 := hbound a (List.mem_cons_self a l) helig
            have h2 := hrel r hrl
            omega
        have hm := htie a (List.mem_cons_self a l) helig hap
        simp only [applyCustomRules, hcond, if_true, hm]
      | none =>
        have hnotelig : ¬ ruleEligible c a := by
          rintro ⟨_, hsome⟩
          rw [hfind] at hsome
          exact Bool.noConfusion hsome
        simp only [applyCustomRules, hcond, if_true, hfind]
        apply ih hsort'
        · obtain ⟨r, hr, hre, hrp⟩ := hex
          rcases List.mem_cons.mp hr with rfl | hrl
          · exact absurd hre hnotelig
          · exact ⟨r, hrl, hre, hrp⟩
        · intro r hr hre
          exact hbound r (List.mem_cons_of_mem a hr) hre
        · intro r hr hre hrp
          exact htie r (List.mem_cons_of_mem a hr) hre hrp
    · rw [Bool.not_eq_true] at hcond
      simp only [applyCustomRules, hcond, Bool.false_eq_true, if_false]
      apply ih hsort'
      · obtain ⟨r, hr, hre, hrp⟩ := hex
        rcases List.mem_cons.mp hr with rfl | hrl
        · rw [hre.1] at hcond
          exact Bool.noConfusion hcond
        · exact ⟨r, hrl, hre, hrp⟩
      · intro r hr hre
        exact hbound r (List.mem_cons_of_mem a hr) hre
      · intro r hr hre hrp
        exact htie r (List.mem_cons_of_mem a hr) hre hrp

theorem findTask_eq_of_first (ql : List Char) :
    ∀ (l : List (String × List (List String))) (i : ℕ) (hi : i < l.length),
      categoryMatches ql (l.get ⟨i, hi⟩).2 = true →
      (∀ j (hj : j < i),
        categoryMatches ql (l.get ⟨j, Nat.lt_trans hj hi⟩).2 = false) →
      findTask ql l = some (l.get ⟨i, hi⟩).1 := by
  intro l
  induction l with
  | nil =>
    intro i hi
    exact absurd hi (Nat.not_lt_zero i)
  | cons a rest ih =>
    rcases a with ⟨t, pats⟩
    intro i hi hmatch hprev
    cases i with
    | zero =>
      simp only [List.get] at hmatch ⊢
      simp only [findTask, hmatch, if_true]
    | succ n =>
      have hhead : categoryMatches ql pats = false := hprev 0 (Nat.succ_pos n)
      simp only [findTask, hhead, Bool.false_eq_true, if_false]
      simp only [List.get] at hmatch ⊢
      exact ih n (Nat.lt_of_succ_lt_succ hi) hmatch
        (fun j hj => hprev (j + 1) (Nat.succ_lt_succ hj))

theorem findTask_eq_none (ql : List Char) :
    ∀ (l : List (String × List (List String))),
      (∀ cat ∈ l, categoryMatches ql cat.2 = false) →
      findTask ql l = none := by
  intro l
  induction l with
  | nil => intro _; rfl
  | cons a rest ih =>
    rcases a with ⟨t, pats⟩
    intro hall
    have hhead : categoryMatches ql pats = false :=
      hall (t, pats) (List.mem_cons_self _ _)
    simp only [findTask, hhead, Bool.false_eq_true, if_false]
    exact ih (fun cat hc => hall cat (List.mem_cons_of_mem _ hc))

theorem findUserContent_skip (l1 l2 : List Message)
    (h : ∀ x ∈ l1, x.role ≠ some "user") :
    findUserContent (l1 ++ l2) = findUserContent l2 := by
  induction l1 with
  | nil => rfl
  | cons a t ih =>
    have ha : (a.role == some "user") = false :=
      beq_eq_false_iff_ne.mpr (h a (List.mem_cons_self a t))
    simp only [List.cons_append, findUserContent, ha, Bool.false_eq_true,
      if_false]
    exact ih (fun x hx => h x (List.mem_cons_of_mem a hx))

theorem findUserContent_none (l : List Message)
    (h : ∀ x ∈ l, x.role ≠ some "user") : findUserContent l = none := by
  have h2 := findUserContent_skip l [] h
  rw [List.append_nil] at h2
  exact h2

/-! ### Claims -/

/-- C2: for every tokenizer and every query text (including the empty
string), the analyzer's complexity score — the weighted sum of the
token-count, vocabulary, task-type and capability components — lies in the
closed interval [0,1]. -/
theorem C2_complexity_score_in_unit_interval (encode : String → List ℕ)
    (query : String) :
    0 ≤ (analyze encode query).complexity_score ∧
      (analyze encode query).complexity_score ≤ 1 := by
  rw [analyze_complexity_score]
  exact calculate_complexity_score_bounds _ _ _ _
    (vocab_complexity_bounds (encode query)).1
    (vocab_complexity_bounds (encode query)).2

/-- C1: every response computed by `create` (i.e. not served from the cache)
prices the selected catalog model by
`(input_tokens/1000)*price_in + (output_tokens/1000)*price_out`, its savings
equal `max 0 (baseline - actual)` where the baseline prices the same token
counts against the catalog's `gpt-4`, and hence its savings are
nonnegative. -/
theorem C1_cost_and_savings (encode : String → List ℕ) (pyHash : String → ℤ)
    (api : String → Option String) (cfg : RouterConfig) (st : RouterState)
    (messages : List Message) (model : String) (now latency : ℚ)
    (resp : RouterResponse) (st' : RouterState)
    (hmiss : cache_get st.cache cfg.cache_ttl now
        (generate_cache_key pyHash (extract_query messages)) = none)
    (h : create encode pyHash api cfg st messages model now latency =
        .ok (resp, st')) :
    ∃ m, catalogFind resp.model = some m ∧
      resp.cost = calculate_cost m resp.input_tokens resp.output_tokens ∧
      resp.savings =
        max 0 (calculate_cost gpt_4 resp.input_tokens resp.output_tokens
                - resp.cost) ∧
      0 ≤ resp.savings := by
  simp only [create, hmiss] at h
  split at h
  · exact Except.noConfusion h
  · rename_i selected heq
    split at h
    · exact Except.noConfusion h
    · rename_i content hcall
      rw [Except.ok.injEq, Prod.mk.injEq] at h
      obtain ⟨h1, h2⟩ := h
      subst h1
      have hsel : catalogFind selected.name = some selected := by
        split at heq
        · rw [Except.ok.injEq] at heq
          subst heq
          exact select_model_in_catalog _ _ _
        · split at heq
          · rename_i m hfind
            rw [Except.ok.injEq] at heq
            subst heq
            exact catalogFind_consistent _ _ hfind
          · exact Except.noConfusion heq
      exact ⟨selected, hsel, rfl, rfl, le_max_left 0 _⟩

/-- C3: whenever a rule in the list matches, has a catalog-known target
model, carries the (strictly or by agreeing on the target) highest priority
among such eligible rules, then `select_model` returns that rule's model —
for EVERY strategy string (rules win before strategy logic) and for every
ordering of the rule list; matching rules naming unknown models (which may
even have higher priority) are silently skipped rather than aborting
selection. -/
theorem C3_highest_priority_rule_wins (c : QueryComplexity)
    (rules : List RoutingRule) (r : RoutingRule) (m : Model)
    (strategy : String)
    (hr : r ∈ rules) (hcond : r.condition c = true)
    (hfound : catalogFind r.model = some m)
    (hmax : ∀ r' ∈ rules, r'.condition c = true →
      (catalogFind r'.model).isSome = true → r'.priority ≤ r.priority)
    (htie : ∀ r' ∈ rules, r'.condition c = true →
      (catalogFind r'.model).isSome = true → r'.priority = r.priority →
      r'.model = r.model) :
    select_model c strategy rules = m := by
  have hperm :=
    List.perm_insertionSort (fun a b => b.priority ≤ a.priority) rules
  have hsorted : List.Sorted (fun a b => b.priority ≤ a.priority)
      (sortRulesByPriority rules) :=
    List.sorted_insertionSort _ rules
  have happly : applyCustomRules c (sortRulesByPriority rules) = some m := by
    apply applyCustomRules_max c r.priority m _ hsorted
    · exact ⟨r, hperm.mem_iff.mpr hr, ⟨hcond, by rw [hfound]; rfl⟩, rfl⟩
    · rintro r' hr' ⟨h1, h2⟩
      exact hmax r' (hperm.mem_iff.mp hr') h1 h2
    · rintro r' hr' ⟨h1, h2⟩ h3
      rw [htie r' (hperm.mem_iff.mp hr') h1 h2 h3]
      exact hfound
  unfold select_model
  rw [happly]

/-- Pointwise cheaper prices give pointwise cheaper costs. -/
theorem calculate_cost_mono (m1 m2 : Model)
    (h1 : m1.cost_per_1k_input ≤ m2.cost_per_1k_input)
    (h2 : m1.cost_per_1k_output ≤ m2.cost_per_1k_output)
    (tin tout : ℕ) :
    calculate_cost m1 tin tout ≤ calculate_cost m2 tin tout := by
  unfold calculate_cost
  have a1 : (0:ℚ) ≤ (tin : ℚ) / 1000 := by positivity
  have a2 : (0:ℚ) ≤ (tout : ℚ) / 1000 := by positivity
  exact add_le_add (mul_le_mul_of_nonneg_left h1 a1)
    (mul_le_mul_of_nonneg_left h2 a2)

/-- A descriptor whose score lands in the third `cost_optimized` tier. -/
def cLowC4 : QueryComplexity :=
  { token_count := 0, vocabulary_complexity := 0, task_type := "general"
    estimated_output_tokens := 0, required_capabilities := []
    complexity_score := 0.6 }

/-- A descriptor whose score lands in the fourth `cost_optimized` tier. -/
def cHighC4 : QueryComplexity :=
  { token_count := 0, vocabulary_complexity := 0, task_type := "general"
    estimated_output_tokens := 0, required_capabilities := []
    complexity_score := 0.75 }

/-- C4 counterexample: the fourth tier (`gemini-pro`) is strictly cheaper
than the third (`gpt-3.5-turbo`) in both price components, so a higher
complexity score (0.75 vs 0.6) IS routed to a cheaper model: the tier
ladder of `_select_cost_optimized` is not ascending in cost. -/
theorem C4_counterexample :
    cLowC4.complexity_score ≤ cHighC4.complexity_score ∧
    select_cost_optimized cLowC4 = gpt_35_turbo ∧
    select_cost_optimized cHighC4 = gemini_pro ∧
    gemini_pro.cost_per_1k_input < gpt_35_turbo.cost_per_1k_input ∧
    gemini_pro.cost_per_1k_output < gpt_35_turbo.cost_per_1k_output := by
  refine ⟨by norm_num [cLowC4, cHighC4], ?_, ?_, ?_, ?_⟩
  · norm_num [select_cost_optimized, cLowC4]
  · norm_num [select_cost_optimized, cHighC4]
  · norm_num [gemini_pro, gpt_35_turbo]
  · norm_num [gemini_pro, gpt_35_turbo]

/-- C4 amended: under `cost_optimized`, a higher complexity score is routed
to a model of pointwise at-least-as-high cost, EXCEPT when the higher score
lands in the `gemini-pro` tier and the lower in the `claude-3-haiku` or
`gpt-3.5-turbo` tier — `gemini-pro` undercuts both. -/
theorem C4_cost_monotone_except_gemini (c1 c2 : QueryComplexity)
    (tin tout : ℕ)
    (hs : c1.complexity_score ≤ c2.complexity_score)
    (hexc : ¬(select_cost_optimized c2 = gemini_pro ∧
      (select_cost_optimized c1 = claude_3_haiku ∨
        select_cost_optimized c1 = gpt_35_turbo))) :
    calculate_cost (select_cost_optimized c1) tin tout ≤
      calculate_cost (select_cost_optimized c2) tin tout := by
  unfold select_cost_optimized at hexc ⊢
  split_ifs at hexc ⊢ <;>
    first
      | linarith
      | exact (hexc (And.intro (Eq.refl gemini_pro)
          (Or.inl (Eq.refl claude_3_haiku)))).elim
      | exact (hexc (And.intro (Eq.refl gemini_pro)
          (Or.inr (Eq.refl gpt_35_turbo)))).elim
      | (apply calculate_cost_mono <;>
          norm_num [mistral_7b, claude_3_haiku, gpt_35_turbo, gemini_pro,
            gpt_4])

/-- Witness for the amended C4: scores 0.2 and 0.9 route to `mistral-7b`
and `gpt-4`, with costs ordered, at 1000 input and 1000 output tokens. -/
theorem C4_cost_monotone_except_gemini_witness :
    calculate_cost (select_cost_optimized
        { token_count := 0, vocabulary_complexity := 0
          task_type := "general", estimated_output_tokens := 0
          required_capabilities := [], complexity_score := 0.2 }) 1000 1000 ≤
      calculate_cost (select_cost_optimized
        { token_count := 0, vocabulary_complexity := 0
          task_type := "general", estimated_output_tokens := 0
          required_capabilities := [], complexity_score := 0.9 }) 1000 1000 :=
  C4_cost_monotone_except_gemini _ _ 1000 1000 (by norm_num)
    (by
      rintro ⟨h, -⟩
      rw [show select_cost_optimized
          { token_count := 0, vocabulary_complexity := 0
            task_type := "general", estimated_output_tokens := 0
            required_capabilities := [], complexity_score := 0.9 } = gpt_4
        from by norm_num [select_cost_optimized]] at h
      exact absurd (congrArg Model.name h) (by decide))

/-- The complexity descriptor used in the C3 witness. -/
def cC3 : QueryComplexity :=
  { token_count := 10, vocabulary_complexity := 1/2, task_type := "general"
    estimated_output_tokens := 10, required_capabilities := []
    complexity_score := 1/2 }

/-- An always-matching rule targeting the catalog's `gpt-4`. -/
def ruleC3 : RoutingRule :=
  { name := "force-gpt4", condition := fun _ => true, model := "gpt-4"
    priority := 10 }

/-- A higher-priority always-matching rule naming an unknown model. -/
def ghostRuleC3 : RoutingRule :=
  { name := "ghost", condition := fun _ => true, model := "no-such-model"
    priority := 100 }

/-- Witness for C3: the unknown-model rule of priority 100 is skipped and
the catalog-known rule of priority 10 wins under `cost_optimized` (whose
strategy logic would otherwise pick `claude-3-haiku` at score 1/2). -/
theorem C3_highest_priority_rule_wins_witness :
    select_model cC3 "cost_optimized" [ghostRuleC3, ruleC3] = gpt_4 := by
  apply C3_highest_priority_rule_wins cC3 [ghostRuleC3, ruleC3] ruleC3 gpt_4
    "cost_optimized" (by simp) rfl rfl
  · rintro r' hr' h1 h2
    rcases List.mem_cons.mp hr' with rfl | hr''
    · exact absurd h2 (by decide)
    · rcases List.mem_cons.mp hr'' with rfl | hr'''
      · exact le_refl _
      · exact absurd hr''' (List.not_mem_nil r')
  · rintro r' hr' h1 h2 h3
    rcases List.mem_cons.mp hr' with rfl | hr''
    · exact absurd h2 (by decide)
    · rcases List.mem_cons.mp hr'' with rfl | hr'''
      · rfl
      · exact absurd hr''' (List.not_mem_nil r')

/-- C8: task-type detection walks the ordered category list `simple_qa`,
`summarization`, `code`, `analysis`, `creative`, `math`, `reasoning` and
returns the FIRST category one of whose case-insensitive patterns matches,
so for a query matching several categories the earliest wins; when no
category matches it returns `"general"`. -/
theorem C8_task_type_first_match (query : String) :
    (∀ i (hi : i < taskPatterns.length),
      categoryMatches (lowerChars query) (taskPatterns.get ⟨i, hi⟩).2 = true →
      (∀ j (hj : j < i),
        categoryMatches (lowerChars query)
          (taskPatterns.get ⟨j, Nat.lt_trans hj hi⟩).2 = false) →
      detect_task_type query = (taskPatterns.get ⟨i, hi⟩).1) ∧
    ((∀ cat ∈ taskPatterns,
        categoryMatches (lowerChars query) cat.2 = false) →
      detect_task_type query = "general") := by
  constructor
  · intro i hi hmatch hprev
    unfold detect_task_type
    rw [findTask_eq_of_first (lowerChars query) taskPatterns i hi hmatch
      hprev]
    rfl
  · intro hall
    unfold detect_task_type
    rw [findTask_eq_none (lowerChars query) taskPatterns hall]
    rfl

/-- Witness for C8: `"summarize this code"` matches both `summarization`
(index 1) and `code` (index 2); the earlier category `summarization` wins,
`simple_qa` (index 0) not matching. -/
theorem C8_task_type_first_match_witness :
    detect_task_type "summarize this code" = "summarization" :=
  (C8_task_type_first_match "summarize this code").1 1 (by decide)
    (by decide)
    (fun j hj => by
      have hj0 : j = 0 := Nat.lt_one_iff.mp hj
      subst hj0
      exact (by decide : categoryMatches (lowerChars "summarize this code")
        (taskPatterns.get ⟨0, Nat.succ_pos 6⟩).2 = false))

/-- The model-resolution step of `SmartRouter.create` (lines 100-110):
strategy/rule selection under `"auto"`, otherwise direct catalog lookup.
This depends only on the analyzer, rules and catalog — not on the provider
call. -/
def routeSelection (encode : String → List ℕ) (cfg : RouterConfig)
    (st : RouterState) (messages : List Message) (model : String) :
    Option Model :=
  if model == "auto" then
    some (select_model (analyze encode (extract_query messages))
      cfg.strategy st.custom_rules)
  else catalogFind model

/-- C5 amended: every response computed by `create` carries the attribution
(name, provider, prices) of the model produced by the SELECTION step, and
its content is whatever `_call_model_api` returned — so when the primary
call fails and the fallback succeeds, the content comes from the fallback
while attribution and pricing stay with the originally selected model. -/
theorem C5_attribution_is_selected_model (encode : String → List ℕ)
    (pyHash : String → ℤ) (api : String → Option String)
    (cfg : RouterConfig) (st : RouterState) (messages : List Message)
    (model : String) (now latency : ℚ) (resp : RouterResponse)
    (st' : RouterState)
    (hmiss : cache_get st.cache cfg.cache_ttl now
        (generate_cache_key pyHash (extract_query messages)) = none)
    (h : create encode pyHash api cfg st messages model now latency =
        .ok (resp, st')) :
    ∃ selected, routeSelection encode cfg st messages model = some selected ∧
      call_model_api api cfg.enable_fallback selected = some resp.content ∧
      resp.model = selected.name ∧
      resp.provider = selected.provider.value ∧
      resp.cost =
        calculate_cost selected resp.input_tokens resp.output_tokens := by
  simp only [create, hmiss] at h
  split at h
  · exact Except.noConfusion h
  · rename_i selected heq
    split at h
    · exact Except.noConfusion h
    · rename_i content hcall
      rw [Except.ok.injEq, Prod.mk.injEq] at h
      obtain ⟨h1, h2⟩ := h
      subst h1
      refine ⟨selected, ?_, hcall, rfl, rfl, rfl⟩
      unfold routeSelection
      split at heq
      · rename_i hauto
        rw [Except.ok.injEq] at heq
        rw [if_pos hauto, heq]
      · rename_i hauto
        rw [if_neg hauto]
        split at heq
        · rename_i m hfind
          rw [Except.ok.injEq] at heq
          rw [hfind, heq]
        · exact Except.noConfusion heq

/-- The provider oracle of the C5 scenario: every model's call raises except
`gpt-3.5-turbo` (the fallback target), which returns `"okay"`. -/
def apiC5 : String → Option String :=
  fun name => if name == "gpt-3.5-turbo" then some "okay" else none

/-- The response of the C5 scenario: balanced strategy selects
`claude-3-haiku` (score 0.2), whose call fails; the fallback produced the
content. -/
def respC5 : RouterResponse :=
  { content := "okay", model := "claude-3-haiku", provider := "anthropic"
    input_tokens := 0, output_tokens := 1
    cost := calculate_cost claude_3_haiku 0 1
    savings := max 0 (calculate_cost gpt_4 0 1
      - calculate_cost claude_3_haiku 0 1)
    latency := 1 }

/-- The router state after the C5 scenario call. -/
def stC5 : RouterState :=
  { custom_rules := []
    cache := [("0", { response := respC5, timestamp := 1 })]
    requests := [{ timestamp := 1, model := "claude-3-haiku"
                   provider := "anthropic", input_tokens := 0
                   output_tokens := 1
                   cost := calculate_cost claude_3_haiku 0 1
                   savings := max 0 (calculate_cost gpt_4 0 1
                     - calculate_cost claude_3_haiku 0 1)
                   latency := 1 }] }

/-- C5 counterexample: with fallback enabled, the primary call for the
selected `claude-3-haiku` fails and the fallback `gpt-3.5-turbo` call
succeeds, yet the returned response is attributed to `claude-3-haiku` —
name, provider and price table — not to the fallback model; only the
content string is the fallback's. -/
theorem C5_counterexample :
    create (fun _ => []) (fun _ => (0 : ℤ)) apiC5 ⟨"balanced", 3600, true⟩
        ⟨[], [], []⟩ [] "auto" 0 1 = .ok (respC5, stC5) ∧
    apiC5 "claude-3-haiku" = none ∧
    apiC5 "gpt-3.5-turbo" = some "okay" ∧
    respC5.content = "okay" ∧
    respC5.model = "claude-3-haiku" ∧
    respC5.model ≠ "gpt-3.5-turbo" ∧
    respC5.provider = "anthropic" ∧
    respC5.cost = calculate_cost claude_3_haiku 0 1 ∧
    respC5.cost ≠ calculate_cost gpt_35_turbo 0 1 := by
  refine ⟨by with_unfolding_all rfl, rfl, rfl, rfl, rfl, by decide, rfl,
    rfl, ?_⟩
  norm_num [respC5, calculate_cost, claude_3_haiku, gpt_35_turbo]

/-- Witness for the amended C5 at the concrete fallback scenario. -/
theorem C5_attribution_is_selected_model_witness :
    ∃ selected, routeSelection (fun _ => []) ⟨"balanced", 3600, true⟩
        ⟨[], [], []⟩ [] "auto" = some selected ∧
      call_model_api apiC5 true selected = some respC5.content ∧
      respC5.model = selected.name ∧
      respC5.provider = selected.provider.value ∧
      respC5.cost =
        calculate_cost selected respC5.input_tokens respC5.output_tokens :=
  C5_attribution_is_selected_model (fun _ => []) (fun _ => (0 : ℤ)) apiC5
    ⟨"balanced", 3600, true⟩ ⟨[], [], []⟩ [] "auto" 0 1 respC5 stC5
    (by with_unfolding_all rfl) (by with_unfolding_all rfl)

/-- C6: cache round-trip.  For the key of query `q`: a `put` at `t0`
followed by a `get` strictly within the TTL returns the stored response; a
`get` at or past the TTL after `t0` misses — regardless of any reads in
between, since `get` leaves the store untouched (no sliding expiration) —
and a `get` misses whenever the entry is absent or `now - timestamp ≥ ttl`. -/
theorem C6_cache_round_trip (cache : List (String × CacheEntry))
    (ttl t0 t1 : ℚ) (pyHash : String → ℤ) (q : String)
    (r : RouterResponse) :
    (t1 - t0 < ttl →
      cache_get (cache_put cache (generate_cache_key pyHash q) r t0) ttl t1
        (generate_cache_key pyHash q) = some r) ∧
    (ttl ≤ t1 - t0 →
      cache_get (cache_put cache (generate_cache_key pyHash q) r t0) ttl t1
        (generate_cache_key pyHash q) = none) ∧
    (∀ e, cacheLookup cache (generate_cache_key pyHash q) = some e →
      ttl ≤ t1 - e.timestamp →
      cache_get cache ttl t1 (generate_cache_key pyHash q) = none) ∧
    (cacheLookup cache (generate_cache_key pyHash q) = none →
      cache_get cache ttl t1 (generate_cache_key pyHash q) = none) := by
  have hlook : cacheLookup
      (cache_put cache (generate_cache_key pyHash q) r t0)
      (generate_cache_key pyHash q) =
      some { response := r, timestamp := t0 } := by
    simp [cacheLookup, cache_put, List.find?]
  refine ⟨?_, ?_, ?_, ?_⟩
  · intro h
    simp only [cache_get, hlook]
    rw [if_pos h]
  · intro h
    simp only [cache_get, hlook]
    rw [if_neg (not_lt.mpr h)]
  · intro e he h
    simp only [cache_get, he]
    rw [if_neg (not_lt.mpr h)]
  · intro he
    simp only [cache_get, he]

/-- A fixed response used in the C6 witness. -/
def respC6 : RouterResponse :=
  { content := "cached", model := "gpt-4", provider := "openai"
    input_tokens := 3, output_tokens := 1, cost := 0, savings := 0
    latency := 0 }

/-- Witness for C6: with TTL 3600, a get 10 seconds after the put hits and
returns the stored response; a get 3600 seconds after the put misses. -/
theorem C6_cache_round_trip_witness :
    cache_get (cache_put [] (generate_cache_key (fun _ => (7 : ℤ)) "hello")
        respC6 0) 3600 10
        (generate_cache_key (fun _ => (7 : ℤ)) "hello") = some respC6 ∧
    cache_get (cache_put [] (generate_cache_key (fun _ => (7 : ℤ)) "hello")
        respC6 0) 3600 3600
        (generate_cache_key (fun _ => (7 : ℤ)) "hello") = none :=
  ⟨(C6_cache_round_trip [] 3600 0 10 (fun _ => (7 : ℤ)) "hello" respC6).1
      (by norm_num),
   ((C6_cache_round_trip [] 3600 0 3600 (fun _ => (7 : ℤ)) "hello"
      respC6).2).1 (by norm_num)⟩

/-- A tracked request with a cost below the rounding resolution of
`get_analytics`. -/
def recC7 : UsageRecord :=
  { timestamp := 0, model := "gpt-4", provider := "openai"
    input_tokens := 1, output_tokens := 1, cost := 1/100000, savings := 0
    latency := 0 }

/-- C7 counterexample: one in-window record of cost `1/100000`; the exact
window sum is `1/100000` but `get_analytics` reports `total_cost = 0`
because it rounds the sum to 4 decimal places — the aggregate is NOT the
exact sum. -/
theorem C7_counterexample :
    (get_analytics [recC7] 0 1).total_cost = 0 ∧
    ((([recC7].filter
        (fun r => (0 : ℚ) - ((1 : ℕ) : ℚ) * 86400 < r.timestamp)).map
          (·.cost)).sum = 1/100000) ∧
    (get_analytics [recC7] 0 1).total_cost ≠
      ((([recC7].filter
        (fun r => (0 : ℚ) - ((1 : ℕ) : ℚ) * 86400 < r.timestamp)).map
          (·.cost)).sum) := by
  have h1 : (get_analytics [recC7] 0 1).total_cost = 0 := by
    with_unfolding_all rfl
  have h2 : ((([recC7].filter
      (fun r => (0 : ℚ) - ((1 : ℕ) : ℚ) * 86400 < r.timestamp)).map
        (·.cost)).sum = (1/100000 : ℚ)) := by
    with_unfolding_all rfl
  refine ⟨h1, h2, ?_⟩
  rw [h1, h2]
  norm_num

/-- C7 amended: `get_analytics` reports the exact in-window record count,
and the in-window cost and savings sums EACH ROUNDED to 4 decimal places
(ties to even), the empty window reporting zeros consistently. -/
theorem C7_analytics_rounded_sums (requests : List UsageRecord) (now : ℚ)
    (period_days : ℕ) :
    (get_analytics requests now period_days).total_requests =
      (requests.filter
        (fun r => now - (period_days : ℚ) * 86400 < r.timestamp)).length ∧
    (get_analytics requests now period_days).total_cost =
      pyRound (((requests.filter
        (fun r => now - (period_days : ℚ) * 86400 < r.timestamp)).map
          (·.cost)).sum) 4 ∧
    (get_analytics requests now period_days).total_savings =
      pyRound (((requests.filter
        (fun r => now - (period_days : ℚ) * 86400 < r.timestamp)).map
          (·.savings)).sum) 4 := by
  simp only [get_analytics]
  split
  · rename_i hempty
    rw [List.isEmpty_iff] at hempty
    rw [hempty]
    refine ⟨rfl, ?_, ?_⟩ <;>
      · show (0 : ℚ) = pyRound (List.sum (List.map _ [])) 4
        norm_num [pyRound, roundHalfEvenInt]
  · exact ⟨rfl, rfl, rfl⟩

/-- The response `create` computes for an empty message list under the
balanced strategy with a trivial tokenizer/hash and a provider returning
`"hi"`. -/
def respC1 : RouterResponse :=
  { content := "hi", model := "claude-3-haiku", provider := "anthropic"
    input_tokens := 0, output_tokens := 0, cost := 0, savings := 0
    latency := 1 }

/-- The router state after the `create` call producing `respC1`. -/
def stC1 : RouterState :=
  { custom_rules := []
    cache := [("0", { response := respC1, timestamp := 1 })]
    requests := [{ timestamp := 1, model := "claude-3-haiku"
                   provider := "anthropic", input_tokens := 0
                   output_tokens := 0, cost := 0, savings := 0
                   latency := 1 }] }

/-- Witness for C1 at a concrete `create` call. -/
theorem C1_cost_and_savings_witness :
    ∃ m, catalogFind respC1.model = some m ∧
      respC1.cost = calculate_cost m respC1.input_tokens respC1.output_tokens ∧
      respC1.savings =
        max 0 (calculate_cost gpt_4 respC1.input_tokens respC1.output_tokens
                - respC1.cost) ∧
      0 ≤ respC1.savings :=
  C1_cost_and_savings (fun _ => []) (fun _ => (0 : ℤ)) (fun _ => some "hi")
    ⟨"balanced", 3600, true⟩ ⟨[], [], []⟩ [] "auto" 0 1 respC1 stC1
    (by with_unfolding_all rfl) (by with_unfolding_all rfl)

/-- A mid-complexity descriptor used in the C9 counterexample. -/
def cC9 : QueryComplexity :=
  { token_count := 0, vocabulary_complexity := 0, task_type := "general"
    estimated_output_tokens := 0, required_capabilities := []
    complexity_score := 1/2 }

/-- C9 counterexample: the strategy name `"bogus"` is outside
`{cost_optimized, quality_first, balanced}`, yet selection does NOT fail
with any error: `select_model` silently answers with the balanced-tier
model `gpt-3.5-turbo`, and a full `create` call under strategy `"bogus"`
returns a normal response. -/
theorem C9_counterexample :
    select_model cC9 "bogus" [] = gpt_35_turbo ∧
    create (fun _ => []) (fun _ => (0 : ℤ)) (fun _ => some "hi")
        ⟨"bogus", 3600, true⟩ ⟨[], [], []⟩ [] "auto" 0 1 =
      .ok (respC1, stC1) :=
  ⟨by with_unfolding_all rfl, by with_unfolding_all rfl⟩

/-- C9 amended: a strategy name outside
`{cost_optimized, quality_first, balanced}` is silently routed like
`balanced` (there is no `ConfigurationError`), while an explicit model name
absent from the catalog makes `create` fail with the unknown-model error
(`ValueError` in the source). -/
theorem C9_unknown_strategy_vs_unknown_model (c : QueryComplexity)
    (strategy : String) (rules : List RoutingRule)
    (encode : String → List ℕ) (pyHash : String → ℤ)
    (api : String → Option String) (cfg : RouterConfig) (st : RouterState)
    (messages : List Message) (name : String) (now latency : ℚ) :
    (strategy ≠ "cost_optimized" → strategy ≠ "quality_first" →
      select_model c strategy rules = select_model c "balanced" rules) ∧
    (cache_get st.cache cfg.cache_ttl now
        (generate_cache_key pyHash (extract_query messages)) = none →
      name ≠ "auto" → catalogFind name = none →
      create encode pyHash api cfg st messages name now latency =
        .error (RouterError.unknownModel name)) := by
  constructor
  · intro h1 h2
    have e1 : (strategy == "cost_optimized") = false :=
      beq_eq_false_iff_ne.mpr h1
    have e2 : (strategy == "quality_first") = false :=
      beq_eq_false_iff_ne.mpr h2
    unfold select_model
    rw [e1, e2]
    rfl
  · intro hmiss hname hfind
    have e3 : (name == "auto") = false := beq_eq_false_iff_ne.mpr hname
    simp only [create, hmiss, e3, Bool.false_eq_true, if_false, hfind]

/-- Witness for the amended C9: strategy `"bogus"` selects like
`balanced`, and the explicit unknown model name `"gpt-5"` raises the
unknown-model error. -/
theorem C9_unknown_strategy_vs_unknown_model_witness :
    select_model cC9 "bogus" [] = select_model cC9 "balanced" [] ∧
    create (fun _ => []) (fun _ => (0 : ℤ)) (fun _ => some "hi")
        ⟨"balanced", 3600, true⟩ ⟨[], [], []⟩ [] "gpt-5" 0 1 =
      .error (RouterError.unknownModel "gpt-5") :=
  ⟨(C9_unknown_strategy_vs_unknown_model cC9 "bogus" [] (fun _ => [])
      (fun _ => (0 : ℤ)) (fun _ => some "hi") ⟨"balanced", 3600, true⟩
      ⟨[], [], []⟩ [] "gpt-5" 0 1).1 (by decide) (by decide),
   (C9_unknown_strategy_vs_unknown_model cC9 "bogus" [] (fun _ => [])
      (fun _ => (0 : ℤ)) (fun _ => some "hi") ⟨"balanced", 3600, true⟩
      ⟨[], [], []⟩ [] "gpt-5" 0 1).2 (by with_unfolding_all rfl)
      (by decide) (by with_unfolding_all rfl)⟩

/-- C10: routing analyzes the content of the LAST message whose role is
`"user"` (messages after it with other roles do not matter); with no
user-role message the extracted query is the empty string and `create`
behaves exactly as on an empty message list — it completes normally. -/
theorem C10_extract_last_user_message (encode : String → List ℕ)
    (pyHash : String → ℤ) (api : String → Option String)
    (cfg : RouterConfig) (st : RouterState) (model : String)
    (now latency : ℚ) (pre post ms : List Message) (m : Message) :
    (m.role = some "user" → (∀ x ∈ post, x.role ≠ some "user") →
      extract_query (pre ++ m :: post) = m.content.getD "") ∧
    ((∀ x ∈ ms, x.role ≠ some "user") → extract_query ms = "") ∧
    ((∀ x ∈ ms, x.role ≠ some "user") →
      create encode pyHash api cfg st ms model now latency =
        create encode pyHash api cfg st [] model now latency) := by
  have hempty : ∀ l : List Message, (∀ x ∈ l, x.role ≠ some "user") →
      extract_query l = "" := by
    intro l hl
    unfold extract_query
    rw [findUserContent_none l.reverse
      (fun x hx => hl x (List.mem_reverse.mp hx))]
    rfl
  refine ⟨?_, hempty ms, ?_⟩
  · intro hm hpost
    unfold extract_query
    rw [List.reverse_append, List.reverse_cons, List.append_assoc,
      findUserContent_skip post.reverse _
        (fun x hx => hpost x (List.mem_reverse.mp hx))]
    simp only [List.singleton_append, findUserContent, hm, beq_self_eq_true,
      if_true]
    rfl
  · intro hms
    have h1 : extract_query ms = "" := hempty ms hms
    have h2 : extract_query [] = "" := rfl
    simp only [create, h1, h2]

/-- Witness for C10: the second (last) user message wins, later
non-user messages are ignored; a user-free message list routes like the
empty list. -/
theorem C10_extract_last_user_message_witness :
    extract_query [⟨some "system", some "s"⟩, ⟨some "user", some "first"⟩,
        ⟨some "user", some "second"⟩, ⟨some "assistant", some "a"⟩] =
      "second" ∧
    extract_query [⟨some "system", some "s"⟩] = "" ∧
    create (fun _ => []) (fun _ => (0 : ℤ)) (fun _ => some "hi")
        ⟨"balanced", 3600, true⟩ ⟨[], [], []⟩ [⟨some "system", some "s"⟩]
        "auto" 0 1 =
      create (fun _ => []) (fun _ => (0 : ℤ)) (fun _ => some "hi")
        ⟨"balanced", 3600, true⟩ ⟨[], [], []⟩ [] "auto" 0 1 := by
  refine ⟨?_, ?_, ?_⟩
  · exact (C10_extract_last_user_message (fun _ => []) (fun _ => (0 : ℤ))
      (fun _ => some "hi") ⟨"balanced", 3600, true⟩ ⟨[], [], []⟩ "auto" 0 1
      [⟨some "system", some "s"⟩, ⟨some "user", some "first"⟩]
      [⟨some "assistant", some "a"⟩] [] ⟨some "user", some "second"⟩).1
      rfl (by decide)
  · exact (C10_extract_last_user_message (fun _ => []) (fun _ => (0 : ℤ))
      (fun _ => some "hi") ⟨"balanced", 3600, true⟩ ⟨[], [], []⟩ "auto" 0 1
      [] [] [⟨some "system", some "s"⟩] ⟨some "user", some "x"⟩).2.1
      (by decide)
  · exact (C10_extract_last_user_message (fun _ => []) (fun _ => (0 : ℤ))
      (fun _ => some "hi") ⟨"balanced", 3600, true⟩ ⟨[], [], []⟩ "auto" 0 1
      [] [] [⟨some "system", some "s"⟩] ⟨some "user", some "x"⟩).2.2
      (by decide)

end SmartLLM
